import Mathlib

/-!
Verification development for the scraparr orchestration core.

Shallow embedding of the components under scrutiny:
  * `ProgressTracker` (src/backend/app/services/progress_tracker.py)
  * `ScraperRunner.run_scraper` (src/backend/app/services/scraper_runner.py)
    together with the `BaseScraper` lifecycle hooks (src/backend/app/scrapers/base.py)
  * `SchedulerService.add_job` / `_create_trigger` (src/backend/app/services/scheduler.py)
  * the checkpointed grid crawl of `Park4NightGridScraper.scrape`
    (src/scrapers/park4night_scraper.py)

Python dictionaries are modelled as association lists with at most one
binding per key, Python sets as `Finset`, numbers as `Nat`/`Int`/`Rat`,
raised exceptions as `Except`, and wall-clock values are threaded in as
explicit parameters.
-/

namespace Scraparr

/-- Lookup in an association list, mirroring `d[k]` / `k in d` on a Python
dict keyed by integers. -/
def getKey {α : Type} (m : List (Nat × α)) (k : Nat) : Option α :=
  (m.find? (fun e => e.1 == k)).map (fun e => e.2)

/-- Remove a key, mirroring `del d[k]` (also a no-op when absent, which the
call sites guard anyway). -/
def delKey {α : Type} (m : List (Nat × α)) (k : Nat) : List (Nat × α) :=
  m.filter (fun e => !(e.1 == k))

/-- Bind a key, mirroring `d[k] = v`. -/
def setKey {α : Type} (m : List (Nat × α)) (k : Nat) (v : α) : List (Nat × α) :=
  (k, v) :: delKey m k

/-! ## Progress Broadcaster
Embedding of `ProgressTracker` (src/backend/app/services/progress_tracker.py).
Websocket observers are identified by a `Nat`; whether `send_json` raises for
a given observer during one `update_progress` call is supplied as a Boolean
function `sendFails`. -/

/-- `ProgressUpdate` dataclass; the timestamp is threaded in explicitly. -/
structure ProgressUpdate where
  execution_id : Nat
  status : String
  items_scraped : Nat
  elapsed_seconds : ℚ
  message : String
  timestamp : String
deriving DecidableEq, Repr

/-- State of `ProgressTracker`: the `_subscribers` and `_progress` dicts. -/
structure ProgressTracker where
  subscribers : List (Nat × Finset Nat)
  progress : List (Nat × ProgressUpdate)
deriving DecidableEq

/-- `ProgressTracker.subscribe` — the immediate snapshot delivery has no state
effect (its failure is caught and only logged). -/
def ProgressTracker.subscribe (t : ProgressTracker) (execution_id ws : Nat) :
    ProgressTracker :=
  let s := (getKey t.subscribers execution_id).getD ∅
  { t with subscribers := setKey t.subscribers execution_id (insert ws s) }

/-- `ProgressTracker.unsubscribe`: discard the observer and drop the map entry
when the set becomes empty. -/
def ProgressTracker.unsubscribe (t : ProgressTracker) (execution_id ws : Nat) :
    ProgressTracker :=
  match getKey t.subscribers execution_id with
  | none => t
  | some s =>
    let s' := s.erase ws
    if s' = ∅ then { t with subscribers := delKey t.subscribers execution_id }
    else { t with subscribers := setKey t.subscribers execution_id s' }

/-- `ProgressTracker.update_progress`: store the snapshot as latest, then
deliver to every current observer; observers whose delivery raises are
collected in `dead_websockets` and discarded from the set. The map entry
itself is never removed here, even when the set becomes empty. -/
def ProgressTracker.update_progress (t : ProgressTracker) (execution_id : Nat)
    (status : String) (items_scraped : Nat) (elapsed_seconds : ℚ) (message : String)
    (now : String) (sendFails : Nat → Bool) : ProgressTracker :=
  let p : ProgressUpdate :=
    ⟨execution_id, status, items_scraped, elapsed_seconds, message, now⟩
  let t1 := { t with progress := setKey t.progress execution_id p }
  match getKey t1.subscribers execution_id with
  | none => t1
  | some s =>
    let dead := s.filter (fun ws => sendFails ws = true)
    { t1 with subscribers := setKey t1.subscribers execution_id (s \ dead) }

/-- `ProgressTracker.complete_execution`: drop both the latest snapshot and
the observer set for the id. (Defined in the source — but never called by
any code path of the repository.) -/
def ProgressTracker.complete_execution (t : ProgressTracker) (execution_id : Nat) :
    ProgressTracker :=
  { subscribers := delKey t.subscribers execution_id,
    progress := delKey t.progress execution_id }

/-! ## Scheduler
Embedding of `SchedulerService` (src/backend/app/services/scheduler.py).
The APScheduler trigger objects are modelled as the data `_create_trigger`
passes to their constructors; the in-memory job store is an association list
keyed by the numeric job id (the `"job_<id>"` string is in bijection with it). -/

/-- The `schedule_config` dict: each recognised key is present or absent. -/
structure ScheduleConfig where
  expression : Option String
  seconds : Option ℚ
  minutes : Option ℚ
  hours : Option ℚ
  days : Option ℚ
  run_at : Option String
  delay_seconds : Option ℚ
deriving DecidableEq, Repr

/-- A constructed APScheduler trigger, by the constructor arguments the
source passes. -/
inductive Trigger where
  | cron (minute hour day month day_of_week : String)
  | interval (unit : String) (amount : ℚ)
  | dateAt (run_at : String)
  | dateDelay (delay_seconds : ℚ)
deriving DecidableEq, Repr

/-- `SchedulerService._create_trigger`: build a trigger from the schedule
type and config, raising `ValueError` (modelled as `Except.error`) on an
invalid type or config. Mirrors the if/elif chain of the source, including
Python's falsiness check `if not expression` (absent or empty string). -/
def _create_trigger (schedule_type : String) (cfg : ScheduleConfig) :
    Except String Trigger :=
  if schedule_type = "cron" then
    match cfg.expression with
    | none => Except.error "Cron schedule requires expression in config"
    | some expr =>
      if expr = "" then Except.error "Cron schedule requires expression in config"
      else
        match (expr.splitOn " ").filter (fun s => s != "") with
        | [minute, hour, day, month, day_of_week] =>
          Except.ok (Trigger.cron minute hour day month day_of_week)
        | _ => Except.error "Cron expression must have 5 parts"
  else if schedule_type = "interval" then
    match cfg.seconds with
    | some v => Except.ok (Trigger.interval "seconds" v)
    | none =>
      match cfg.minutes with
      | some v => Except.ok (Trigger.interval "minutes" v)
      | none =>
        match cfg.hours with
        | some v => Except.ok (Trigger.interval "hours" v)
        | none =>
          match cfg.days with
          | some v => Except.ok (Trigger.interval "days" v)
          | none =>
            Except.error "Interval schedule requires seconds, minutes, hours, or days in config"
  else if schedule_type = "once" then
    match cfg.run_at with
    | some s => Except.ok (Trigger.dateAt s)
    | none =>
      match cfg.delay_seconds with
      | some v => Except.ok (Trigger.dateDelay v)
      | none => Except.error "Once schedule requires run_at or delay_seconds in config"
  else Except.error ("Invalid schedule type: " ++ schedule_type)

/-- `SchedulerService.remove_job`: remove the trigger if present, absence is
not an error. -/
def SchedulerService.remove_job (reg : List (Nat × Trigger)) (job_id : Nat) :
    List (Nat × Trigger) :=
  delKey reg job_id

/-- `SchedulerService.add_job` restricted to its effect on the trigger
registry: first remove any existing trigger for this job id, then build the
trigger; a `ValueError` from `_create_trigger` propagates to the caller with
the registry left as it is at that point (i.e. after the removal). Returns
the call result together with the final registry. -/
def SchedulerService.add_job (reg : List (Nat × Trigger)) (job_id : Nat)
    (schedule_type : String) (schedule_config : ScheduleConfig) :
    Except String Trigger × List (Nat × Trigger) :=
  let reg1 := SchedulerService.remove_job reg job_id
  match _create_trigger schedule_type schedule_config with
  | Except.error e => (Except.error e, reg1)
  | Except.ok trigger => (Except.ok trigger, setKey reg1 job_id trigger)

/-- How many of the four interval keys the config supplies (the spec's
"exactly one" reads this count). -/
def intervalKeyCount (cfg : ScheduleConfig) : Nat :=
  (if cfg.seconds.isSome then 1 else 0) + (if cfg.minutes.isSome then 1 else 0) +
    (if cfg.hours.isSome then 1 else 0) + (if cfg.days.isSome then 1 else 0)

/-! ## Task Executor
Embedding of `ScraperRunner.run_scraper` (src/backend/app/services/scraper_runner.py)
and the `BaseScraper` lifecycle (src/backend/app/scrapers/base.py).
The dynamic import plus the `issubclass` contract check is a function
`plugins : module_path → class_name → Except error behavior`; a plugin's
behavior for one run is the outcome of each lifecycle step. -/

/-- A scraped record: an opaque dict. -/
def ScrapedRecord : Type := List (String × String)

/-- A row of the `scrapers` table (src/backend/app/models/scraper.py),
restricted to the fields `run_scraper` reads. -/
structure Scraper where
  id : Nat
  module_path : String
  class_name : String
  schema_name : Option String
  config : List (String × String)
  headers : List (String × String)
  is_active : Bool

/-- A row of the `executions` table (src/backend/app/models/execution.py),
restricted to the fields `run_scraper` writes. `items_scraped` has the
column default 0; `completed_at` carries the tick passed in for
`datetime.utcnow()`. -/
structure Execution where
  id : Nat
  scraper_id : Nat
  job_id : Option Nat
  status : String
  items_scraped : Nat
  error_message : Option String
  logs : Option String
  completed_at : Option Nat
  params : List (String × String)

/-- The behavior of one plugin class for one execution: whether its
constructor raises, whether each hook raises, the `report_progress` calls
`scrape` makes, and what `scrape` returns. -/
structure PluginBehavior where
  init_error : Option String
  before_error : Option String
  progress_calls : List (Nat × String)
  scrape_result : Except String (List ScrapedRecord)
  after_error : Option String
  on_error_raises : Bool

/-- The mutable state of a `BaseScraper` instance that `run_scraper`
observes: the constructor arguments and the collected `self.logs`.
`execution_id` defaults to `None` in the source constructor. -/
structure BaseScraperInst where
  scraper_id : Nat
  schema_name : Option String
  config : List (String × String)
  headers : List (String × String)
  execution_id : Option Nat
  logs : List String

/-- `BaseScraper.report_progress`: a no-op when `execution_id` is `None`,
otherwise an `update_progress` with status `"running"`. -/
def BaseScraperInst.report_progress (inst : BaseScraperInst) (t : ProgressTracker)
    (items_scraped : Nat) (message : String) (elapsed_seconds : ℚ) (now : String)
    (sendFails : Nat → Bool) : ProgressTracker :=
  match inst.execution_id with
  | none => t
  | some eid =>
    t.update_progress eid "running" items_scraped elapsed_seconds message now sendFails

/-- The `report_progress` calls a plugin's `scrape` makes during its run,
applied in order (elapsed time, timestamp and delivery outcomes are
inessential here and fixed). -/
def applyProgressCalls (inst : BaseScraperInst) (t : ProgressTracker)
    (calls : List (Nat × String)) : ProgressTracker :=
  calls.foldl
    (fun acc c => inst.report_progress acc c.1 c.2 0 "" (fun _ => false)) t

/-- The first error of the `before_scrape` / `scrape` / `after_scrape`
sequence, exactly as the `try` block of `run_scraper` encounters it. -/
def firstFailure (pb : PluginBehavior) : Option String :=
  match pb.before_error with
  | some e => some e
  | none =>
    match pb.scrape_result with
    | Except.error e => some e
    | Except.ok _ => pb.after_error

/-- The state `run_scraper` touches: the persisted execution rows and the
global progress tracker. -/
structure RunnerState where
  executions : List Execution
  tracker : ProgressTracker

/-- Observable outcome of one `run_scraper` call: the returned value or the
raised error, the state after the call, and whether the `on_error` hook was
invoked. -/
structure RunOutcome where
  result : Except String Nat
  state : RunnerState
  on_error_invoked : Bool

/-- The `except` branch of `run_scraper` when the scraper instance exists:
call `on_error` (its own failure is caught and only logged; the default hook
appends a log line), then record the original failure on the execution row.
The `finally` block then commits; `cleanup` has no modelled state. -/
def finalize_failed (execs : List Execution) (tracker : ProgressTracker)
    (execution : Execution) (inst : BaseScraperInst) (err : String)
    (on_error_raises : Bool) (now : Nat) : RunOutcome :=
  let instAfter :=
    if on_error_raises then inst
    else { inst with logs := inst.logs ++ ["Error during scraping: " ++ err] }
  ⟨Except.ok execution.id,
   ⟨execs ++ [{ execution with
                status := "failed", error_message := some err,
                completed_at := some now,
                logs := some (String.intercalate "\n" instAfter.logs) }], tracker⟩,
   true⟩

/-- `ScraperRunner.run_scraper`. Fresh execution ids are `length + 1`; the
instance is constructed exactly with the arguments of the source call site —
in particular without `execution_id`, which therefore stays `None`. -/
def run_scraper (db : List Scraper)
    (plugins : String → String → Except String PluginBehavior)
    (st : RunnerState) (scraper_id : Nat) (job_id : Option Nat)
    (params : List (String × String)) (now : Nat) : RunOutcome :=
  match db.find? (fun s => s.id == scraper_id) with
  | none =>
    ⟨Except.error ("Scraper " ++ toString scraper_id ++ " not found"), st, false⟩
  | some cfg =>
    if cfg.is_active = false then
      ⟨Except.error ("Scraper " ++ toString scraper_id ++ " is not active"), st, false⟩
    else
      let execution : Execution :=
        { id := st.executions.length + 1, scraper_id := scraper_id, job_id := job_id,
          status := "running", items_scraped := 0, error_message := none, logs := none,
          completed_at := none, params := params }
      match plugins cfg.module_path cfg.class_name with
      | Except.error e =>
        ⟨Except.ok execution.id,
         ⟨st.executions ++ [{ execution with
                              status := "failed", error_message := some e,
                              completed_at := some now }], st.tracker⟩, false⟩
      | Except.ok pb =>
        match pb.init_error with
        | some e =>
          ⟨Except.ok execution.id,
           ⟨st.executions ++ [{ execution with
                                status := "failed", error_message := some e,
                                completed_at := some now }], st.tracker⟩, false⟩
        | none =>
          let inst : BaseScraperInst :=
            { scraper_id := scraper_id, schema_name := cfg.schema_name,
              config := cfg.config, headers := cfg.headers,
              execution_id := none, logs := [] }
          match pb.before_error with
          | some e =>
            finalize_failed st.executions st.tracker execution inst e pb.on_error_raises now
          | none =>
            let tracker1 := applyProgressCalls inst st.tracker pb.progress_calls
            match pb.scrape_result with
            | Except.error e =>
              finalize_failed st.executions tracker1 execution inst e pb.on_error_raises now
            | Except.ok results =>
              match pb.after_error with
              | some e =>
                finalize_failed st.executions tracker1 execution inst e pb.on_error_raises now
              | none =>
                ⟨Except.ok execution.id,
                 ⟨st.executions ++ [{ execution with
                                      status := "success",
                                      items_scraped := results.length,
                                      completed_at := some now,
                                      logs := some (String.intercalate "\n" inst.logs) }],
                  tracker1⟩, false⟩

/-! ## Checkpointed grid crawl
Embedding of `Park4NightGridScraper` (src/scrapers/park4night_scraper.py):
grid generation, the resume filter, the per-point fetch/dedup loop with its
in-memory `grid_progress` list, and the checkpoint persistence that
`after_scrape` → `_store_data` performs after the crawl. Coordinates are
exact rationals; the per-point HTTP fetch is a function into `Except`
(an exception at one grid point is logged and the loop continues). -/

/-- A grid coordinate pair. -/
abbrev GridPoint : Type := ℚ × ℚ

/-- Python's `round` to an integer: round half to even. -/
def pyRoundHalfEven (q : ℚ) : ℤ :=
  let f := ⌊q⌋
  let r := q - (f : ℚ)
  if r < 1/2 then f
  else if 1/2 < r then f + 1
  else if f % 2 = 0 then f else f + 1

/-- `round(x, 4)` of the source, over exact rationals. -/
def round4 (q : ℚ) : ℚ := ((pyRoundHalfEven (q * 10000) : ℤ) : ℚ) / 10000

/-- One axis of `_generate_grid`: the `while current <= hi` loop stepping by
`grid_spacing` (the source would not terminate for a nonpositive spacing;
the guard marks that partiality). -/
def axisPoints (lo hi step : ℚ) : List ℚ :=
  if h : 0 < step ∧ lo ≤ hi then lo :: axisPoints (lo + step) hi step else []
termination_by (⌊(hi - lo) / step⌋ + 1).toNat
decreasing_by
  obtain ⟨hstep, hle⟩ := h
  have hne : step ≠ 0 := ne_of_gt hstep
  have hx : (0 : ℚ) ≤ (hi - lo) / step := div_nonneg (by linarith) (le_of_lt hstep)
  have hfl : 0 ≤ ⌊(hi - lo) / step⌋ := Int.floor_nonneg.mpr hx
  have key : (hi - (lo + step)) / step = (hi - lo) / step - 1 := by
    field_simp
    ring
  rw [key]
  have : ⌊(hi - lo) / step - 1⌋ = ⌊(hi - lo) / step⌋ - 1 := by
    exact_mod_cast Int.floor_sub_int ((hi - lo) / step) 1
  rw [this]
  omega

/-- `Park4NightGridScraper._generate_grid`: the nested while loops, with
`round(…, 4)` applied to each emitted coordinate. -/
def _generate_grid (lat_min lat_max lon_min lon_max grid_spacing : ℚ) :
    List GridPoint :=
  (axisPoints lat_min lat_max grid_spacing).flatMap
    (fun la => (axisPoints lon_min lon_max grid_spacing).map
      (fun lo => (round4 la, round4 lo)))

/-- An SQLAlchemy `Table`, restricted to what the progress helpers touch:
its name and the names of its columns. -/
structure TableSpec where
  name : String
  columns : List String
deriving DecidableEq, Repr

/-- Column access `t.c.<name>`: raises `AttributeError` when the table has
no such column. -/
def tableColumn (t : TableSpec) (column : String) : Except String String :=
  if column ∈ t.columns then Except.ok column
  else Except.error ("AttributeError: " ++ column)

/-- `Park4NightGridScraper.define_tables` (lines 945-1011): the four tables
in their returned order — `grid_progress` is at index 3,
`place_descriptions` at index 2. -/
def park4nightTables : List TableSpec :=
  [⟨"places",
    ["id", "nom", "type", "latitude", "longitude", "pays", "ville", "description",
     "prix", "rating", "nb_comment", "services", "raw_data", "scraped_at",
     "updated_at"]⟩,
   ⟨"reviews",
    ["id", "place_id", "review_id", "user_id", "username", "note", "comment",
     "date", "raw_data", "scraped_at"]⟩,
   ⟨"place_descriptions",
    ["id", "place_id", "language_code", "description", "created_at"]⟩,
   ⟨"grid_progress",
    ["id", "region", "grid_lat", "grid_lon", "places_found", "processed_at"]⟩]

/-- One entry of the in-memory `grid_progress` list / `grid_progress` table. -/
structure GridProgressEntry where
  region : String
  grid_lat : ℚ
  grid_lon : ℚ
  places_found : Nat
deriving DecidableEq, Repr

/-- `Park4NightGridScraper._get_processed_grid_points` (lines 1225-1238):
binds `grid_progress_table = tables[2]` — the `place_descriptions` table —
then builds `select(grid_progress_table.c.grid_lat,
grid_progress_table.c.grid_lon).where(grid_progress_table.c.region == …)`.
The first column access raises `AttributeError` when the column is missing;
only if all three exist does the query run against the stored checkpoint
rows (given here as `checkpoints`). -/
def _get_processed_grid_points (checkpoints : List GridProgressEntry)
    (region : String) : Except String (Finset GridPoint) :=
  let tables := park4nightTables
  let grid_progress_table := (tables.get? 2).getD ⟨"", []⟩
  match tableColumn grid_progress_table "grid_lat" with
  | Except.error e => Except.error e
  | Except.ok _ =>
    match tableColumn grid_progress_table "grid_lon" with
    | Except.error e => Except.error e
    | Except.ok _ =>
      match tableColumn grid_progress_table "region" with
      | Except.error e => Except.error e
      | Except.ok _ =>
        Except.ok
          (((checkpoints.filter (fun r => r.region == region)).map
            (fun r => (r.grid_lat, r.grid_lon))).toFinset)

/-- The resume load of `scrape` (lines 1300-1311): only when resuming, try
`_get_processed_grid_points`; any exception is logged
("Could not load progress (starting fresh)") and the set stays empty. -/
def loadProcessedPoints (resume : Bool) (checkpoints : List GridProgressEntry)
    (region : String) : Finset GridPoint :=
  if resume then
    match _get_processed_grid_points checkpoints region with
    | Except.ok s => s
    | Except.error _ => ∅
  else ∅

/-- The grid-point selection of `scrape` (lines 1300-1320): load the
checkpointed points (through the try/except above), filter them out of the
grid, then apply the optional `max_grid_points` truncation. -/
def scrapeGridPoints (grid : List GridPoint) (checkpoints : List GridProgressEntry)
    (region : String) (resume : Bool) (max_grid_points : Option Nat) :
    List GridPoint :=
  let processed_points := loadProcessedPoints resume checkpoints region
  let pts := grid.filter (fun p => decide (p ∉ processed_points))
  match max_grid_points with
  | some m => pts.take m
  | none => pts

/-- A place returned by the park4night API: its `id` key (absent or an
integer, with Python truthiness applied by the dedup guard) and the
`reviews` payload attached by `_enrich_with_reviews`. -/
structure Place where
  id : Option ℤ
  reviews : List ℤ
deriving DecidableEq, Repr

/-- The inner dedup loop of `scrape`: `if place_id and place_id not in
seen_ids` — a falsy id (absent or 0) is dropped, a fresh id is recorded in
the run-scoped seen-set and the place kept. -/
def dedupPlaces : List Place → Finset ℤ → List Place × Finset ℤ
  | [], seen => ([], seen)
  | pl :: rest, seen =>
    match pl.id with
    | none => dedupPlaces rest seen
    | some n =>
      if n ≠ 0 ∧ n ∉ seen then
        let out := dedupPlaces rest (insert n seen)
        (pl :: out.1, out.2)
      else dedupPlaces rest seen

/-- The grid loop of `scrape` (lines 1333-1377): fetch each point, dedup
against the run-scoped seen-set, append the point's entry to the in-memory
`grid_progress` list; an exception at one point is logged and the loop
continues. Returns (all_places, grid_progress, seen_ids). -/
def processGridPoints (fetch : GridPoint → Except String (List Place))
    (region : String) :
    List GridPoint → Finset ℤ → List Place × List GridProgressEntry × Finset ℤ
  | [], seen => ([], [], seen)
  | p :: rest, seen =>
    match fetch p with
    | Except.error _ => processGridPoints fetch region rest seen
    | Except.ok places =>
      let d := dedupPlaces places seen
      let r := processGridPoints fetch region rest d.2
      (d.1 ++ r.1, ⟨region, p.1, p.2, places.length⟩ :: r.2.1, r.2.2)

/-- The record list `scrape` returns: the deduplicated places, each enriched
with reviews when `include_reviews` is set and any place was found. -/
def scrapeRecords (fetch : GridPoint → Except String (List Place))
    (region : String) (pts : List GridPoint) (include_reviews : Bool)
    (fetchReviews : Place → List ℤ) : List Place :=
  let all_places := (processGridPoints fetch region pts ∅).1
  if include_reviews && !all_places.isEmpty then
    all_places.map (fun p => { p with reviews := fetchReviews p })
  else all_places

/-- Events of one crawl run, in order: a grid point being processed by the
loop, and a checkpoint row being written to the `grid_progress` table. -/
inductive CrawlEvent where
  | process (p : GridPoint)
  | persistCheckpoint (p : GridPoint)
deriving DecidableEq, Repr

/-- The body of the `try` in `_store_data` restricted to the checkpoint
rows: the database write may raise. -/
def _store_data_attempt (storeFails : Bool) (entries : List GridProgressEntry) :
    Except String (List GridProgressEntry) :=
  if storeFails then Except.error "db error" else Except.ok entries

/-- `_store_data`'s surrounding `try/except`: a raised error is turned into
a log line and nothing is persisted; the call itself never raises. Returns
(persisted rows, log lines). -/
def _store_data (storeFails : Bool) (entries : List GridProgressEntry) :
    List GridProgressEntry × List String :=
  match _store_data_attempt storeFails entries with
  | Except.error e => ([], ["Error storing data in database: " ++ e])
  | Except.ok persisted => (persisted, [])

/-- The event trace of one run of `scrape` followed by `after_scrape`: the
loop processes every selected point while `grid_progress` is only kept in
memory; the checkpoint rows are written afterwards by `_store_data`, and
only when the result list is nonempty (the entries ride on
`results[0]['_grid_progress']`). -/
def crawlTrace (fetch : GridPoint → Except String (List Place))
    (region : String) (pts : List GridPoint) (storeFails : Bool) :
    List CrawlEvent :=
  let r := processGridPoints fetch region pts ∅
  let persisted := if r.1.isEmpty then [] else (_store_data storeFails r.2.1).1
  pts.map CrawlEvent.process ++
    persisted.map (fun e => CrawlEvent.persistCheckpoint (e.grid_lat, e.grid_lon))

/-- The claimed ordering: some write of `p`'s checkpoint happens before `q`
is processed. -/
def persistedBefore (tr : List CrawlEvent) (p q : GridPoint) : Prop :=
  ∃ j k, tr.get? j = some (CrawlEvent.persistCheckpoint p) ∧
    tr.get? k = some (CrawlEvent.process q) ∧ j < k

/-! ## Concrete fixtures used by counterexamples and witnesses -/

/-- A schedule config supplying no key at all. -/
def emptyCfg : ScheduleConfig := ⟨none, none, none, none, none, none, none⟩

/-- An interval config supplying both `seconds` and `minutes`. -/
def twoKeyCfg : ScheduleConfig := ⟨none, some 1, some 2, none, none, none, none⟩

/-- A registry holding one trigger for job 1. -/
def regOne : List (Nat × Trigger) := [(1, Trigger.interval "seconds" 5)]

/-- An active scraper row. -/
def scraperA : Scraper :=
  ⟨1, "scrapers.park4night_scraper", "Park4NightGridScraper", some "scraper_1",
   [], [], true⟩

/-- A scrapers table holding only `scraperA`. -/
def dbA : List Scraper := [scraperA]

/-- A plugin world in which the dynamic import fails. -/
def loadFailPlugins : String → String → Except String PluginBehavior :=
  fun _ _ => Except.error "No module named m"

/-- A plugin whose `before_scrape` raises while `scrape` itself would
succeed (and hence never runs). -/
def pbBeforeFails : PluginBehavior :=
  ⟨none, some "before hook failed", [], Except.ok [], none, false⟩

/-- A plugin world resolving every reference to `pbBeforeFails`. -/
def beforeFailsPlugins : String → String → Except String PluginBehavior :=
  fun _ _ => Except.ok pbBeforeFails

/-- A plugin that reports progress from `scrape` and succeeds. -/
def pbReports : PluginBehavior :=
  ⟨none, none, [(5, "halfway")], Except.ok [[("id", "1")]], none, false⟩

/-- A plugin world resolving every reference to `pbReports`. -/
def reportsPlugins : String → String → Except String PluginBehavior :=
  fun _ _ => Except.ok pbReports

/-- The broadcaster with no snapshot and no observer. -/
def emptyTracker : ProgressTracker := ⟨[], []⟩

/-- Runner state with no executions and an empty broadcaster. -/
def emptyRunnerState : RunnerState := ⟨[], emptyTracker⟩

/-- A fetch returning the same single place (external id 1) at every grid
point. -/
def c6Fetch : GridPoint → Except String (List Place) :=
  fun _ => Except.ok [⟨some 1, []⟩]

/-! ## Association-list lemmas -/

theorem getKey_cons {α : Type} (e : Nat × α) (m : List (Nat × α)) (k : Nat) :
    getKey (e :: m) k = if e.1 = k then some e.2 else getKey m k := by
  by_cases he : e.1 = k <;> simp [getKey, List.find?_cons, he]

theorem getKey_setKey {α : Type} (m : List (Nat × α)) (k : Nat) (v : α) :
    getKey (setKey m k v) k = some v := by
  simp [setKey, getKey_cons]

theorem getKey_delKey_self {α : Type} (m : List (Nat × α)) (k : Nat) :
    getKey (delKey m k) k = none := by
  induction m with
  | nil => rfl
  | cons e rest ih =>
    by_cases he : e.1 = k
    · simpa [delKey, List.filter_cons, he] using ih
    · have h1 : delKey (e :: rest) k = e :: delKey rest k := by
        simp [delKey, List.filter_cons, he]
      rw [h1, getKey_cons]
      simp [he, ih]

theorem getKey_delKey_ne {α : Type} (m : List (Nat × α)) (k k' : Nat) (h : k' ≠ k) :
    getKey (delKey m k) k' = getKey m k' := by
  induction m with
  | nil => rfl
  | cons e rest ih =>
    by_cases he : e.1 = k
    · have h1 : delKey (e :: rest) k = delKey rest k := by
        simp [delKey, List.filter_cons, he]
      have h2 : e.1 ≠ k' := by rw [he]; exact Ne.symm h
      rw [h1, ih, getKey_cons]
      simp [h2]
    · have h1 : delKey (e :: rest) k = e :: delKey rest k := by
        simp [delKey, List.filter_cons, he]
      rw [h1, getKey_cons, getKey_cons, ih]

theorem getKey_setKey_ne {α : Type} (m : List (Nat × α)) (k k' : Nat) (v : α)
    (h : k' ≠ k) : getKey (setKey m k v) k' = getKey m k' := by
  rw [setKey, getKey_cons]
  simp only [Ne.symm h, if_false]
  exact getKey_delKey_ne m k k' h

/-! ## Progress Broadcaster lemmas and C10 -/

theorem update_progress_subscribers_eq (t : ProgressTracker) (eid : Nat)
    (status : String) (items : Nat) (el : ℚ) (msg now : String) (sf : Nat → Bool)
    (s : Finset Nat) (h : getKey t.subscribers eid = some s) :
    (t.update_progress eid status items el msg now sf).subscribers
      = setKey t.subscribers eid (s \ s.filter (fun ws => sf ws = true)) := by
  simp only [ProgressTracker.update_progress, h]

/-- C10: when delivery fails for every current observer of an execution id,
`update_progress` discards each of them but keeps the id bound to an empty
set; a further `update_progress` still keeps the empty entry, and only
`unsubscribe` removes it — so `update_progress` does not preserve the
no-empty-observer-set property that `unsubscribe` maintains. -/
theorem update_progress_leaves_empty_observer_set
    (t : ProgressTracker) (eid : Nat) (s : Finset Nat)
    (status : String) (items : Nat) (el : ℚ) (msg now : String) (sendFails : Nat → Bool)
    (h : getKey t.subscribers eid = some s)
    (hfail : ∀ ws ∈ s, sendFails ws = true) :
    getKey (t.update_progress eid status items el msg now sendFails).subscribers eid
      = some ∅
    ∧ (∀ status2 items2 el2 msg2 now2 sf2,
        getKey ((t.update_progress eid status items el msg now sendFails).update_progress
          eid status2 items2 el2 msg2 now2 sf2).subscribers eid = some ∅)
    ∧ (∀ ws,
        getKey ((t.update_progress eid status items el msg now sendFails).unsubscribe
          eid ws).subscribers eid = none) := by
  have hdead : s.filter (fun ws => sendFails ws = true) = s :=
    Finset.filter_eq_self.mpr hfail
  have hsub : (t.update_progress eid status items el msg now sendFails).subscribers
      = setKey t.subscribers eid ∅ := by
    rw [update_progress_subscribers_eq t eid status items el msg now sendFails s h,
      hdead, Finset.sdiff_self]
  have h1 : getKey (t.update_progress eid status items el msg now sendFails).subscribers
      eid = some ∅ := by
    rw [hsub]; exact getKey_setKey _ _ _
  refine ⟨h1, ?_, ?_⟩
  · intro status2 items2 el2 msg2 now2 sf2
    rw [update_progress_subscribers_eq _ eid status2 items2 el2 msg2 now2 sf2 ∅ h1]
    rw [Finset.empty_sdiff]
    exact getKey_setKey _ _ _
  · intro ws
    simp only [ProgressTracker.unsubscribe, h1, Finset.erase_empty, if_pos rfl]
    exact getKey_delKey_self _ _

/-- C10 witness: a tracker with one observer (7) for execution 1 whose
delivery always fails. -/
theorem update_progress_leaves_empty_observer_set_witness :
    getKey ((ProgressTracker.mk [(1, {7})] []).update_progress 1 "running" 0 0 "m" "t"
      (fun _ => true)).subscribers 1 = some ∅ :=
  (update_progress_leaves_empty_observer_set ⟨[(1, {7})], []⟩ 1 {7} "running" 0 0 "m" "t"
    (fun _ => true) rfl (fun _ _ => rfl)).1

/-! ## Scheduler: C4 and C8 -/

/-- C4 (amended): `add_job` with an invalid schedule kind or configuration
fails with `InvalidSchedule` (`ValueError`) and leaves no trigger registered
for that job id — but because the existing trigger is removed before the new
schedule is validated, the registry after the failed call is the registry
before it minus any previous trigger for that id, not the unchanged
registry. -/
theorem add_job_invalid_leaves_no_trigger (reg : List (Nat × Trigger)) (job_id : Nat)
    (schedule_type : String) (cfg : ScheduleConfig) (e : String)
    (h : _create_trigger schedule_type cfg = Except.error e) :
    (SchedulerService.add_job reg job_id schedule_type cfg).1 = Except.error e
    ∧ getKey (SchedulerService.add_job reg job_id schedule_type cfg).2 job_id = none
    ∧ (SchedulerService.add_job reg job_id schedule_type cfg).2 = delKey reg job_id := by
  refine ⟨?_, ?_, ?_⟩ <;>
    simp only [SchedulerService.add_job, SchedulerService.remove_job, h]
  exact getKey_delKey_self _ _

/-- C4 witness: an invalid schedule kind against a registry already holding
a trigger for job 1. -/
theorem add_job_invalid_leaves_no_trigger_witness :
    (SchedulerService.add_job regOne 1 "bogus" emptyCfg).1
      = Except.error ("Invalid schedule type: " ++ "bogus")
    ∧ getKey (SchedulerService.add_job regOne 1 "bogus" emptyCfg).2 1 = none
    ∧ (SchedulerService.add_job regOne 1 "bogus" emptyCfg).2 = delKey regOne 1 :=
  add_job_invalid_leaves_no_trigger regOne 1 "bogus" emptyCfg
    ("Invalid schedule type: " ++ "bogus") rfl

/-- C4 counterexample: with a trigger registered for job 1, a failing
`add_job` for job 1 leaves the registry empty — not equal to the registry
before the call, and the previously registered trigger is gone. -/
theorem add_job_invalid_registry_changed_cex :
    (SchedulerService.add_job regOne 1 "bogus" emptyCfg).2 = []
    ∧ (SchedulerService.add_job regOne 1 "bogus" emptyCfg).2 ≠ regOne
    ∧ getKey (SchedulerService.add_job regOne 1 "bogus" emptyCfg).2 1 = none := by
  refine ⟨rfl, ?_, rfl⟩
  intro hcontra
  rw [show (SchedulerService.add_job regOne 1 "bogus" emptyCfg).2 = [] from rfl] at hcontra
  exact absurd hcontra (by simp [regOne])

/-- C8 (amended): trigger construction for schedule kind `interval` succeeds
exactly when the configuration supplies at least one of
seconds/minutes/hours/days (the first present key in that priority order
wins); supplying none of the four fails with `InvalidSchedule`. -/
theorem interval_trigger_ok_iff_some_key (cfg : ScheduleConfig) :
    (∃ t, _create_trigger "interval" cfg = Except.ok t) ↔
      (cfg.seconds.isSome = true ∨ cfg.minutes.isSome = true ∨
        cfg.hours.isSome = true ∨ cfg.days.isSome = true) := by
  cases hs : cfg.seconds <;> cases hm : cfg.minutes <;> cases hh : cfg.hours <;>
    cases hd : cfg.days <;>
      simp [_create_trigger, hs, hm, hh, hd]

/-- C8 counterexample: a configuration supplying two of the four interval
keys (seconds and minutes) is accepted — construction does not require
exactly one key; the `seconds` value wins. -/
theorem interval_trigger_two_keys_cex :
    _create_trigger "interval" twoKeyCfg = Except.ok (Trigger.interval "seconds" 1)
    ∧ intervalKeyCount twoKeyCfg = 2 :=
  ⟨rfl, rfl⟩

/-! ## Task Executor: C1, C2, C3, C7 -/

theorem applyProgressCalls_execution_id_none (inst : BaseScraperInst)
    (t : ProgressTracker) (calls : List (Nat × String))
    (h : inst.execution_id = none) :
    applyProgressCalls inst t calls = t := by
  induction calls generalizing t with
  | nil => rfl
  | cons c rest ih =>
    simp only [applyProgressCalls, List.foldl_cons]
    rw [show inst.report_progress t c.1 c.2 0 "" (fun _ => false) = t by
      simp [BaseScraperInst.report_progress, h]]
    exact ih t

theorem run_scraper_tracker_invariant (db : List Scraper)
    (plugins : String → String → Except String PluginBehavior) (st : RunnerState)
    (sid : Nat) (jid : Option Nat) (params : List (String × String)) (now : Nat) :
    (run_scraper db plugins st sid jid params now).state.tracker = st.tracker := by
  simp only [run_scraper]
  split
  · rfl
  · split
    · rfl
    · split
      · rfl
      · split
        · rfl
        · split
          · simp [finalize_failed]
          · split
            · simp [finalize_failed, applyProgressCalls_execution_id_none]
            · split
              · simp [finalize_failed, applyProgressCalls_execution_id_none]
              · simp [applyProgressCalls_execution_id_none]

/-- C2: after `run_scraper` returns, the Progress Broadcaster's entire state
is exactly what it was before the call — `run_scraper` never invokes
`complete_execution` (no call site exists in the repository), so neither the
latest snapshot nor the observer set of the returned execution id is
cleared. -/
theorem run_scraper_never_clears_broadcaster (db : List Scraper)
    (plugins : String → String → Except String PluginBehavior) (st : RunnerState)
    (sid : Nat) (jid : Option Nat) (params : List (String × String)) (now : Nat) :
    (run_scraper db plugins st sid jid params now).state.tracker = st.tracker :=
  run_scraper_tracker_invariant db plugins st sid jid params now

/-- C3: an execution started by `run_scraper` never stores or broadcasts any
`ProgressSnapshot`, whatever `report_progress` calls the plugin makes — the
call site instantiates the scraper without `execution_id`, so
`report_progress` returns immediately. Starting from an empty broadcaster,
the broadcaster is still empty after the run. -/
theorem run_scraper_never_stores_snapshot (db : List Scraper)
    (plugins : String → String → Except String PluginBehavior)
    (execs : List Execution) (sid : Nat) (jid : Option Nat)
    (params : List (String × String)) (now : Nat) :
    (run_scraper db plugins ⟨execs, emptyTracker⟩ sid jid params now).state.tracker
      = emptyTracker :=
  run_scraper_tracker_invariant db plugins ⟨execs, emptyTracker⟩ sid jid params now

/-- C1 (amended): a task-not-found or task-inactive failure is surfaced
synchronously and leaves no partial state (no ExecutionRecord); a plugin
resolution/contract failure, by contrast, happens after the ExecutionRecord
is inserted: the record is persisted with status `failed` and the load error
as its error message, and the call returns the execution id normally instead
of raising. -/
theorem run_scraper_setup_failures (db : List Scraper)
    (plugins : String → String → Except String PluginBehavior) (st : RunnerState)
    (sid : Nat) (jid : Option Nat) (params : List (String × String)) (now : Nat) :
    (db.find? (fun s => s.id == sid) = none →
      (run_scraper db plugins st sid jid params now).result
          = Except.error ("Scraper " ++ toString sid ++ " not found")
        ∧ (run_scraper db plugins st sid jid params now).state = st)
    ∧ (∀ cfg, db.find? (fun s => s.id == sid) = some cfg → cfg.is_active = false →
      (run_scraper db plugins st sid jid params now).result
          = Except.error ("Scraper " ++ toString sid ++ " is not active")
        ∧ (run_scraper db plugins st sid jid params now).state = st)
    ∧ (∀ cfg e, db.find? (fun s => s.id == sid) = some cfg → cfg.is_active = true →
      plugins cfg.module_path cfg.class_name = Except.error e →
      (run_scraper db plugins st sid jid params now).result
          = Except.ok (st.executions.length + 1)
        ∧ (run_scraper db plugins st sid jid params now).state.executions
            = st.executions ++
              [{ id := st.executions.length + 1, scraper_id := sid, job_id := jid,
                 status := "failed", items_scraped := 0, error_message := some e,
                 logs := none, completed_at := some now, params := params }]) := by
  refine ⟨?_, ?_, ?_⟩
  · intro h
    constructor <;> simp [run_scraper, h]
  · intro cfg hfind hinact
    constructor <;> simp [run_scraper, hfind, hinact]
  · intro cfg e hfind hact hload
    constructor <;> simp [run_scraper, hfind, hact, hload]

/-- C1 counterexample: with an active scraper whose plugin import fails,
`run_scraper` does not surface the error synchronously — it returns the new
execution id, and a failed ExecutionRecord has been created and persisted. -/
theorem run_scraper_plugin_load_failure_cex :
    (run_scraper dbA loadFailPlugins emptyRunnerState 1 none [] 0).result
        = Except.ok 1
    ∧ (run_scraper dbA loadFailPlugins emptyRunnerState 1 none [] 0).state.executions
        = [⟨1, 1, none, "failed", 0, some "No module named m", none, some 0, []⟩]
    ∧ (run_scraper dbA loadFailPlugins emptyRunnerState 1 none [] 0).state.executions
        ≠ [] := by
  refine ⟨rfl, rfl, ?_⟩
  intro h
  rw [show (run_scraper dbA loadFailPlugins emptyRunnerState 1 none [] 0).state.executions
      = [⟨1, 1, none, "failed", 0, some "No module named m", none, some 0, []⟩] from rfl] at h
  exact List.cons_ne_nil _ _ h

/-- C7 (amended): once the plugin is instantiated, `on_error` runs exactly
when one of `before_scrape`/`scrape`/`after_scrape` failed (not only when
`scrape` itself failed), it receives that error, any exception it raises is
swallowed by the executor, and the recorded `error_message` is the original
failure. -/
theorem on_error_contained (db : List Scraper)
    (plugins : String → String → Except String PluginBehavior) (st : RunnerState)
    (sid : Nat) (jid : Option Nat) (params : List (String × String)) (now : Nat)
    (cfg : Scraper) (pb : PluginBehavior)
    (hfind : db.find? (fun s => s.id == sid) = some cfg)
    (hact : cfg.is_active = true)
    (hload : plugins cfg.module_path cfg.class_name = Except.ok pb)
    (hinit : pb.init_error = none) :
    ((run_scraper db plugins st sid jid params now).on_error_invoked = true ↔
      (firstFailure pb).isSome = true)
    ∧ (∀ e, firstFailure pb = some e →
        (run_scraper db plugins st sid jid params now).result
            = Except.ok (st.executions.length + 1)
        ∧ ((run_scraper db plugins st sid jid params now).state.executions.getLast?).map
              Execution.status = some "failed"
        ∧ ((run_scraper db plugins st sid jid params now).state.executions.getLast?).map
              Execution.error_message = some (some e)) := by
  cases hbefore : pb.before_error with
  | some e0 =>
    constructor
    · simp [run_scraper, hfind, hact, hload, hinit, hbefore, finalize_failed, firstFailure]
    · intro e he
      have he0 : e0 = e := by
        simpa [firstFailure, hbefore] using he
      subst he0
      refine ⟨?_, ?_, ?_⟩ <;>
        simp [run_scraper, hfind, hact, hload, hinit, hbefore, finalize_failed,
          List.getLast?_concat]
  | none =>
    cases hscrape : pb.scrape_result with
    | error e0 =>
      constructor
      · simp [run_scraper, hfind, hact, hload, hinit, hbefore, hscrape, finalize_failed,
          firstFailure]
      · intro e he
        have he0 : e0 = e := by
          simpa [firstFailure, hbefore, hscrape] using he
        subst he0
        refine ⟨?_, ?_, ?_⟩ <;>
          simp [run_scraper, hfind, hact, hload, hinit, hbefore, hscrape, finalize_failed,
            List.getLast?_concat]
    | ok results =>
      cases hafter : pb.after_error with
      | some e0 =>
        constructor
        · simp [run_scraper, hfind, hact, hload, hinit, hbefore, hscrape, hafter,
            finalize_failed, firstFailure]
        · intro e he
          have he0 : e0 = e := by
            simpa [firstFailure, hbefore, hscrape, hafter] using he
          subst he0
          refine ⟨?_, ?_, ?_⟩ <;>
            simp [run_scraper, hfind, hact, hload, hinit, hbefore, hscrape, hafter,
              finalize_failed, List.getLast?_concat]
      | none =>
        constructor
        · simp [run_scraper, hfind, hact, hload, hinit, hbefore, hscrape, hafter,
            firstFailure]
        · intro e he
          exact absurd he (by simp [firstFailure, hbefore, hscrape, hafter])

/-- C7 witness: an active scraper whose plugin's `before_scrape` raises. -/
theorem on_error_contained_witness :
    ((run_scraper dbA beforeFailsPlugins emptyRunnerState 1 none [] 0).on_error_invoked
        = true ↔ (firstFailure pbBeforeFails).isSome = true)
    ∧ (∀ e, firstFailure pbBeforeFails = some e →
        (run_scraper dbA beforeFailsPlugins emptyRunnerState 1 none [] 0).result
            = Except.ok ((emptyRunnerState).executions.length + 1)
        ∧ ((run_scraper dbA beforeFailsPlugins emptyRunnerState 1 none [] 0).state.executions.getLast?).map
              Execution.status = some "failed"
        ∧ ((run_scraper dbA beforeFailsPlugins emptyRunnerState 1 none [] 0).state.executions.getLast?).map
              Execution.error_message = some (some e)) :=
  on_error_contained dbA beforeFailsPlugins emptyRunnerState 1 none [] 0 scraperA
    pbBeforeFails rfl rfl rfl rfl

/-- C7 counterexample: `on_error` runs although `scrape` never failed — the
failure was in `before_scrape`, so "`on_error` runs only if `run` failed" is
false of the code. -/
theorem on_error_runs_without_scrape_failure_cex :
    (run_scraper dbA beforeFailsPlugins emptyRunnerState 1 none [] 0).on_error_invoked
        = true
    ∧ pbBeforeFails.scrape_result = Except.ok [] :=
  ⟨rfl, rfl⟩

/-! ## Grid crawl: C5, C9, C6 -/

/-- C5: the resume filter is defeated by a wrong table index —
`_get_processed_grid_points` binds `tables[2]` (the `place_descriptions`
table, which has no `grid_lat` column), so the checkpoint load raises
`AttributeError` on every call; `scrape` swallows the exception and starts
fresh, leaving the filter set empty. Whatever checkpoints are recorded for
the region, the crawl processes the full generated grid — a checkpointed
partition is revisited even with resume enabled. -/
theorem checkpoint_load_always_fails
    (lat_min lat_max lon_min lon_max grid_spacing : ℚ)
    (checkpoints : List GridProgressEntry) (region : String) (resume : Bool) :
    _get_processed_grid_points checkpoints region
        = Except.error ("AttributeError: " ++ "grid_lat")
    ∧ loadProcessedPoints resume checkpoints region = ∅
    ∧ scrapeGridPoints (_generate_grid lat_min lat_max lon_min lon_max grid_spacing)
        checkpoints region resume none
      = _generate_grid lat_min lat_max lon_min lon_max grid_spacing := by
  have h2 : loadProcessedPoints resume checkpoints region = ∅ := by
    cases resume <;> rfl
  refine ⟨rfl, h2, ?_⟩
  simp [scrapeGridPoints, h2]

theorem dedupPlaces_spec (places : List Place) (seen : Finset ℤ) :
    seen ⊆ (dedupPlaces places seen).2
    ∧ (∀ pl ∈ (dedupPlaces places seen).1,
        ∃ n, pl.id = some n ∧ n ∉ seen ∧ n ∈ (dedupPlaces places seen).2)
    ∧ ((dedupPlaces places seen).1.map Place.id).Nodup := by
  induction places generalizing seen with
  | nil => simp [dedupPlaces]
  | cons pl rest ih =>
    cases hid : pl.id with
    | none => simpa [dedupPlaces, hid] using ih seen
    | some n =>
      by_cases hcond : n ≠ 0 ∧ n ∉ seen
      · obtain ⟨ih1, ih2, ih3⟩ := ih (insert n seen)
        refine ⟨?_, ?_, ?_⟩
        · simp only [dedupPlaces, hid, if_pos hcond]
          exact (Finset.subset_insert n seen).trans ih1
        · simp only [dedupPlaces, hid, if_pos hcond]
          intro q hq
          rcases List.mem_cons.mp hq with hq | hq
          · subst hq
            exact ⟨n, hid, hcond.2, ih1 (Finset.mem_insert_self n seen)⟩
          · obtain ⟨m, hm, hmna, hmem⟩ := ih2 q hq
            exact ⟨m, hm, fun hc => hmna (Finset.mem_insert_of_mem hc), hmem⟩
        · simp only [dedupPlaces, hid, if_pos hcond, List.map_cons]
          refine List.nodup_cons.mpr ⟨?_, ih3⟩
          intro hmem
          obtain ⟨q, hq, hqid⟩ := List.mem_map.mp hmem
          obtain ⟨m, hm, hmna, _⟩ := ih2 q hq
          rw [hm] at hqid
          exact hmna (Option.some.inj hqid ▸ Finset.mem_insert_self n seen)
      · simpa [dedupPlaces, hid, if_neg hcond] using ih seen

theorem processGridPoints_spec (fetch : GridPoint → Except String (List Place))
    (region : String) (pts : List GridPoint) (seen : Finset ℤ) :
    seen ⊆ (processGridPoints fetch region pts seen).2.2
    ∧ (∀ pl ∈ (processGridPoints fetch region pts seen).1,
        ∃ n, pl.id = some n ∧ n ∉ seen
          ∧ n ∈ (processGridPoints fetch region pts seen).2.2)
    ∧ ((processGridPoints fetch region pts seen).1.map Place.id).Nodup := by
  induction pts generalizing seen with
  | nil => simp [processGridPoints]
  | cons p rest ih =>
    cases hf : fetch p with
    | error e => simpa [processGridPoints, hf] using ih seen
    | ok places =>
      obtain ⟨d1, d2, d3⟩ := dedupPlaces_spec places seen
      obtain ⟨r1, r2, r3⟩ := ih (dedupPlaces places seen).2
      refine ⟨?_, ?_, ?_⟩
      · simp only [processGridPoints, hf]
        exact d1.trans r1
      · simp only [processGridPoints, hf]
        intro q hq
        rcases List.mem_append.mp hq with hq | hq
        · obtain ⟨m, hm, hmns, hmd⟩ := d2 q hq
          exact ⟨m, hm, hmns, r1 hmd⟩
        · obtain ⟨m, hm, hmnd, hmem⟩ := r2 q hq
          exact ⟨m, hm, fun hc => hmnd (d1 hc), hmem⟩
      · simp only [processGridPoints, hf, List.map_append]
        refine List.nodup_append.mpr ⟨d3, r3, ?_⟩
        intro a ha ha'
        obtain ⟨q, hq, hqa⟩ := List.mem_map.mp ha
        obtain ⟨q', hq', hqa'⟩ := List.mem_map.mp ha'
        obtain ⟨m, hm, _, hmd⟩ := d2 q hq
        obtain ⟨m', hm', hmnd, _⟩ := r2 q' hq'
        rw [← hqa, hm] at hqa'
        rw [hm'] at hqa'
        exact hmnd (Option.some.inj hqa' ▸ hmd)

/-- C9: within one grid-crawl run, no two records in the list `scrape`
returns carry the same external id — the run-scoped seen-set suppresses
cross-partition duplicates (and records with a falsy id are dropped
entirely). -/
theorem scrape_output_ids_nodup (fetch : GridPoint → Except String (List Place))
    (region : String) (pts : List GridPoint) (include_reviews : Bool)
    (fetchReviews : Place → List ℤ) :
    ((scrapeRecords fetch region pts include_reviews fetchReviews).map Place.id).Nodup := by
  have h := (processGridPoints_spec fetch region pts ∅).2.2
  simp only [scrapeRecords]
  split
  · rw [List.map_map]
    have hcomp : Place.id ∘ (fun p => { p with reviews := fetchReviews p }) = Place.id := by
      funext q
      rfl
    rw [hcomp]
    exact h
  · exact h

/-- C6 (amended): during the crawl, checkpoints are only accumulated in the
in-memory `grid_progress` list — every `process` event precedes every
checkpoint write, which `after_scrape` → `_store_data` performs in one batch
at the end; a failure of that batch write is caught and logged, never
raised. -/
theorem crawl_checkpoints_batched (fetch : GridPoint → Except String (List Place))
    (region : String) (pts : List GridPoint) (storeFails : Bool) :
    (∃ suffix, crawlTrace fetch region pts storeFails
        = pts.map CrawlEvent.process ++ suffix
      ∧ ∀ ev ∈ suffix, ∃ p, ev = CrawlEvent.persistCheckpoint p)
    ∧ (∀ entries, _store_data true entries
        = ([], ["Error storing data in database: " ++ "db error"])) := by
  constructor
  · refine ⟨_, rfl, ?_⟩
    intro ev hev
    obtain ⟨en, _, heq⟩ := List.mem_map.mp hev
    exact ⟨(en.grid_lat, en.grid_lon), heq.symm⟩
  · intro entries
    rfl

/-- C6 counterexample: with two grid points, the first point's checkpoint is
written only after the second point has been processed — no checkpoint write
happens before the next partition is processed. -/
theorem checkpoint_after_next_point_cex :
    crawlTrace c6Fetch "r" [(0, 0), (1, 1)] false
      = [CrawlEvent.process (0, 0), CrawlEvent.process (1, 1),
         CrawlEvent.persistCheckpoint (0, 0), CrawlEvent.persistCheckpoint (1, 1)]
    ∧ ¬ persistedBefore (crawlTrace c6Fetch "r" [(0, 0), (1, 1)] false) (0, 0) (1, 1) := by
  have htr : crawlTrace c6Fetch "r" [(0, 0), (1, 1)] false
      = [CrawlEvent.process (0, 0), CrawlEvent.process (1, 1),
         CrawlEvent.persistCheckpoint (0, 0), CrawlEvent.persistCheckpoint (1, 1)] := by
    rfl
  refine ⟨htr, ?_⟩
  rintro ⟨j, k, hj, hk, hjk⟩
  rw [htr] at hj hk
  have hj4 : j < 4 := by
    by_contra hge
    push_neg at hge
    rw [List.get?_eq_none.mpr (by simpa using hge)] at hj
    simp at hj
  have hk4 : k < 4 := by
    by_contra hge
    push_neg at hge
    rw [List.get?_eq_none.mpr (by simpa using hge)] at hk
    simp at hk
  interval_cases j <;> interval_cases k <;>
    first
      | exact absurd hj (by decide)
      | exact absurd hk (by decide)

end Scraparr
